import Mathlib

/-!
Verification of `@snowpack/plugin-optimize`'s HTML engine
(`src/plugins/plugin-optimize/lib/html.js` plus the orchestrator in
`src/test/build/optimize/src/...`): a shallow embedding of the moo-based
HTML lexer (`parseHTML`), the import scanner (`scanHTML`), the document
rewriter (`injectHTML`) and the preload planner (`preloadJS`), together with
theorems settling the frozen claims about them.

The moo lexer is embedded rule for rule: at the current position the rules of
the active state are tried in declaration order, and the first rule whose
regular expression matches (JavaScript alternation picks the first matching
alternative, not the longest) produces the token.  When no rule matches, moo
throws ("invalid syntax"); the embedding records that as an error flag.
-/

namespace Snowpack

/-- Token kinds of the moo lexer in `parseHTML` (html.js lines 19-63). -/
inductive TokType
  | commentStart | docType | tagOpen | tagClose | nl | indent | any
  | commentEnd | commentAny
  | tagSelfClose | tagEnd | attrName | tagWS | tagAny
  | attrAssignment | attrEnd | attrValue | attrAny
  deriving DecidableEq

/-- Lexer states of `moo.states` in `parseHTML`: `main`, `comment`, `tag`, `attr`. -/
inductive LexState
  | main | comment | tag | attr
  deriving DecidableEq

/-- JavaScript regular-expression class `\s` (the members relevant to source text;
the exotic Unicode space code points behave identically for every claim). -/
def jsWhitespace (c : Char) : Bool :=
  c = ' ' || c = '\t' || c = '\n' || c = '\r' || c = '\x0b' || c = '\x0c' ||
  c = Char.ofNat 0xa0 || c = Char.ofNat 0xfeff || c = Char.ofNat 0x2028 || c = Char.ofNat 0x2029

/-- JavaScript `.` without the dot-all flag: any char except line terminators. -/
def jsDot (c : Char) : Bool :=
  !(c = '\n' || c = '\r' || c = Char.ofNat 0x2028 || c = Char.ofNat 0x2029)

/-- The class `[a-zA-Z-]` used for tag and attribute names. -/
def tagNameChar (c : Char) : Bool :=
  ('a' ≤ c && c ≤ 'z') || ('A' ≤ c && c ≤ 'Z') || c = '-'

/-- The `commentStart` rule: its regex matches the literal `<` `!` `-` `-`. -/
def matchCommentStart (cs : List Char) : Option Nat :=
  if ['<', '!', '-', '-'].isPrefixOf cs then some 4 else none

/-- `docType: /<![^>]+>/` -/
def matchDocType : List Char → Option Nat
  | '<' :: '!' :: rest =>
    let n := (rest.takeWhile (fun c => !(c = '>'))).length
    if n = 0 then none
    else
      match rest.drop n with
      | '>' :: _ => some (n + 3)
      | _ => none
  | _ => none

/-- `tagOpen: /<\s*[a-zA-Z-]+/` -/
def matchTagOpen : List Char → Option Nat
  | '<' :: rest =>
    let w := (rest.takeWhile jsWhitespace).length
    let n := ((rest.drop w).takeWhile tagNameChar).length
    if n = 0 then none else some (1 + w + n)
  | _ => none

/-- `tagClose: /<\/\s*[a-zA-Z-]+\s*>/` -/
def matchTagClose : List Char → Option Nat
  | '<' :: '/' :: rest =>
    let w1 := (rest.takeWhile jsWhitespace).length
    let r1 := rest.drop w1
    let n := (r1.takeWhile tagNameChar).length
    if n = 0 then none
    else
      let r2 := r1.drop n
      let w2 := (r2.takeWhile jsWhitespace).length
      match r2.drop w2 with
      | '>' :: _ => some (2 + w1 + n + w2 + 1)
      | _ => none
  | _ => none

/-- `nl: /\r?\n/` -/
def matchNL : List Char → Option Nat
  | '\r' :: '\n' :: _ => some 2
  | '\n' :: _ => some 1
  | _ => none

/-- The class `[\t| ]` of the `indent` rule: tab, literal pipe, space. -/
def indentChar (c : Char) : Bool :=
  c = '\t' || c = '|' || c = ' '

/-- `indent: /[\t| ]+/` -/
def matchIndent (cs : List Char) : Option Nat :=
  let n := (cs.takeWhile indentChar).length
  if n = 0 then none else some n

/-- `any: /.+/` (also `tagAny`, `attrAny`): a maximal nonempty run of `.` chars. -/
def matchAnyRun (cs : List Char) : Option Nat :=
  let n := (cs.takeWhile jsDot).length
  if n = 0 then none else some n

/-- `commentEnd: /\s*-->/`: the greedy `\s*` run must be followed directly by
`-->` (backtracking cannot help, a shorter run would face a whitespace char). -/
def matchCommentEnd (cs : List Char) : Option Nat :=
  let w := (cs.takeWhile jsWhitespace).length
  if ['-', '-', '>'].isPrefixOf (cs.drop w) then some (w + 3) else none

/-- `commentAny: /./` -/
def matchCommentAny : List Char → Option Nat
  | c :: _ => if jsDot c then some 1 else none
  | [] => none

/-- `tagSelfClose: /\/>/` -/
def matchTagSelfClose (cs : List Char) : Option Nat :=
  if ['/', '>'].isPrefixOf cs then some 2 else none

/-- `tagEnd: />/` -/
def matchTagEnd : List Char → Option Nat
  | '>' :: _ => some 1
  | _ => none

/-- `attrName: /[a-zA-Z-]+/` -/
def matchAttrName (cs : List Char) : Option Nat :=
  let n := (cs.takeWhile tagNameChar).length
  if n = 0 then none else some n

/-- The class `[\t|\s]` of the `tagWS` rule. -/
def tagWSChar (c : Char) : Bool :=
  c = '\t' || c = '|' || jsWhitespace c

/-- `tagWS: /[\t|\s]+/` -/
def matchTagWS (cs : List Char) : Option Nat :=
  let n := (cs.takeWhile tagWSChar).length
  if n = 0 then none else some n

/-- `attrAssignment: /=/` -/
def matchAttrAssign : List Char → Option Nat
  | '=' :: _ => some 1
  | _ => none

/-- `attrEnd: /\s/` -/
def matchAttrEnd : List Char → Option Nat
  | c :: _ => if jsWhitespace c then some 1 else none
  | [] => none

/-- `attrValue: /"[^"]+"/`: note that ONLY double-quoted values can match. -/
def matchAttrValue : List Char → Option Nat
  | '"' :: rest =>
    let n := (rest.takeWhile (fun c => !(c = '"'))).length
    if n = 0 then none
    else
      match rest.drop n with
      | '"' :: _ => some (n + 2)
      | _ => none
  | _ => none

/-- JavaScript `String.prototype.trim` (whitespace from both ends). -/
def jsTrim (s : String) : String :=
  ⟨((s.data.dropWhile jsWhitespace).reverse.dropWhile jsWhitespace).reverse⟩

/-- JavaScript `toLowerCase`, character by character (ASCII letters; mapped
over the chars so the kernel can evaluate it). -/
def jsToLower (s : String) : String :=
  ⟨s.data.map Char.toLower⟩

/-- The `tagOpen`/`tagClose` value callback:
`text.toLowerCase().replace(/\s/g, '')`. -/
def tagNameValue (s : String) : String :=
  ⟨(jsToLower s).data.filter (fun c => !(jsWhitespace c))⟩

/-- `text.replace(/^('|")?/g, '"')`: the anchored optional group always matches
once at position 0, so a leading quote is replaced by `"` and otherwise `"` is
inserted in front. -/
def replaceLeadQuote (l : List Char) : List Char :=
  match l with
  | c :: rest => if c = '"' ∨ c = Char.ofNat 39 then '"' :: rest else '"' :: c :: rest
  | [] => ['"']

/-- `text.replace(/("|')?$/, '"')`: the leftmost match is the trailing quote if
there is one (replaced by `"`), else the empty match at the end (so `"` is
appended). -/
def replaceTrailQuote (l : List Char) : List Char :=
  match l.reverse with
  | c :: rest => if c = '"' ∨ c = Char.ofNat 39 then ('"' :: rest).reverse else ('"' :: c :: rest).reverse
  | [] => ['"']

/-- The `attrValue` value callback (html.js lines 54-58). -/
def attrValueTransform (s : String) : String :=
  ⟨replaceTrailQuote (replaceLeadQuote (jsTrim s).data)⟩

/-- The `attrName` value callback: `attr.toLowerCase()`. -/
def lowerValue (s : String) : String := jsToLower s

/-- Stack effect of a moo rule: stay, `push` a state, or `pop: 1`. -/
inductive StackOp
  | stay
  | pushState (s : LexState)
  | popState

/-- One moo rule: token kind, its regex matcher, its value callback, its stack effect. -/
structure Rule where
  type : TokType
  matcher : List Char → Option Nat
  valueFn : String → String
  op : StackOp

/-- The rules of each state, in declaration order (html.js lines 19-63). -/
def stateRules : LexState → List Rule
  | LexState.main =>
    [ ⟨TokType.commentStart, matchCommentStart, id, StackOp.pushState LexState.comment⟩,
      ⟨TokType.docType, matchDocType, id, StackOp.stay⟩,
      ⟨TokType.tagOpen, matchTagOpen, tagNameValue, StackOp.pushState LexState.tag⟩,
      ⟨TokType.tagClose, matchTagClose, tagNameValue, StackOp.stay⟩,
      ⟨TokType.nl, matchNL, id, StackOp.stay⟩,
      ⟨TokType.indent, matchIndent, id, StackOp.stay⟩,
      ⟨TokType.any, matchAnyRun, id, StackOp.stay⟩ ]
  | LexState.comment =>
    [ ⟨TokType.commentEnd, matchCommentEnd, id, StackOp.popState⟩,
      ⟨TokType.commentAny, matchCommentAny, id, StackOp.stay⟩ ]
  | LexState.tag =>
    [ ⟨TokType.tagSelfClose, matchTagSelfClose, id, StackOp.popState⟩,
      ⟨TokType.tagEnd, matchTagEnd, id, StackOp.popState⟩,
      ⟨TokType.attrName, matchAttrName, lowerValue, StackOp.pushState LexState.attr⟩,
      ⟨TokType.tagWS, matchTagWS, id, StackOp.stay⟩,
      ⟨TokType.tagAny, matchAnyRun, id, StackOp.stay⟩ ]
  | LexState.attr =>
    [ ⟨TokType.attrAssignment, matchAttrAssign, jsTrim, StackOp.stay⟩,
      ⟨TokType.attrEnd, matchAttrEnd, id, StackOp.popState⟩,
      ⟨TokType.attrValue, matchAttrValue, attrValueTransform, StackOp.popState⟩,
      ⟨TokType.attrAny, matchAnyRun, id, StackOp.stay⟩ ]

/-- First rule of the list whose matcher succeeds at the current position
(JavaScript alternation semantics). -/
def firstMatch (cs : List Char) : List Rule → Option (Rule × Nat)
  | [] => none
  | r :: rs =>
    match r.matcher cs with
    | some n => some (r, n)
    | none => firstMatch cs rs

/-- A moo token: kind, raw matched text, transformed value, offset in the input. -/
structure Token where
  type : TokType
  text : String
  value : String
  offset : Nat
  deriving DecidableEq

/-- Apply a rule's stack effect to the state stack (head is the current state). -/
def applyOp : StackOp → List LexState → List LexState
  | StackOp.stay, st => st
  | StackOp.pushState s, st => s :: st
  | StackOp.popState, st => st.tail

/-- Run the lexer: emit tokens until the input is exhausted (`false` flag) or no
rule of the current state matches, where moo throws "invalid syntax" (`true`
flag after the tokens emitted so far).  `fuel` only bounds the recursion; every
rule consumes at least one character, so the fuel chosen in `parseHTML` is
never exhausted. -/
def tokenizeGo : Nat → List LexState → List Char → Nat → List Token × Bool
  | _, _, [], _ => ([], false)
  | 0, _, _ :: _, _ => ([], true)
  | fuel+1, stack, c :: cs, off =>
    match firstMatch (c :: cs) (stateRules (stack.headD LexState.main)) with
    | none => ([], true)
    | some (r, n) =>
      match tokenizeGo fuel (applyOp r.op stack) ((c :: cs).drop n)
          (off + ((c :: cs).take n).length) with
      | (toks, err) =>
        (⟨r.type, ⟨(c :: cs).take n⟩, r.valueFn ⟨(c :: cs).take n⟩, off⟩ :: toks, err)

/-- `parseHTML(htmlDoc)` (html.js lines 11-65): the full lazy token stream,
materialized, with the error flag recording whether the lexer throws at the end. -/
def parseHTML (htmlDoc : String) : List Token × Bool :=
  tokenizeGo (htmlDoc.data.length + 1) [LexState.main] htmlDoc.data 0

/-- Concatenation of the raw matched texts of a token list. -/
def concatTexts : List Token → String
  | [] => ""
  | t :: rest => t.text ++ concatTexts rest

/-- Offsets are consecutive starting from `k`: each token sits exactly where the
previous one ended (monotone, gap-free coverage). -/
def offsetsFromB : Nat → List Token → Bool
  | _, [] => true
  | k, t :: rest => (t.offset == k) && offsetsFromB (k + t.text.length) rest

theorem length_string_mk (l : List Char) : (⟨l⟩ : String).length = l.length := rfl

theorem append_string_mk (l1 l2 : List Char) :
    (⟨l1⟩ : String) ++ (⟨l2⟩ : String) = ⟨l1 ++ l2⟩ := rfl

theorem tokenizeGo_roundtrip :
    ∀ (fuel : Nat) (stack : List LexState) (cs : List Char) (off : Nat),
      (tokenizeGo fuel stack cs off).2 = false →
      concatTexts (tokenizeGo fuel stack cs off).1 = ⟨cs⟩ ∧
      offsetsFromB off (tokenizeGo fuel stack cs off).1 = true := by
  intro fuel
  induction fuel with
  | zero =>
    intro stack cs off h
    cases cs with
    | nil => simp [tokenizeGo, concatTexts, offsetsFromB]
    | cons c cs' => simp [tokenizeGo] at h
  | succ fuel ih =>
    intro stack cs off h
    cases cs with
    | nil => simp [tokenizeGo, concatTexts, offsetsFromB]
    | cons c cs' =>
      revert h
      simp only [tokenizeGo]
      cases hm : firstMatch (c :: cs') (stateRules (stack.headD LexState.main)) with
      | none => intro h; simp at h
      | some rn =>
        obtain ⟨r, n⟩ := rn
        simp only
        cases hrec : tokenizeGo fuel (applyOp r.op stack) ((c :: cs').drop n)
            (off + ((c :: cs').take n).length) with
        | mk toks err =>
          intro h
          simp only at h
          subst h
          have := ih (applyOp r.op stack) ((c :: cs').drop n)
            (off + ((c :: cs').take n).length) (by rw [hrec])
          rw [hrec] at this
          simp only at this
          constructor
          · show (⟨(c :: cs').take n⟩ : String) ++ concatTexts toks = ⟨c :: cs'⟩
            rw [this.1, append_string_mk, List.take_append_drop]
          · show ((off == off) && offsetsFromB (off + (⟨(c :: cs').take n⟩ : String).length) toks) = true
            rw [length_string_mk, this.2]
            simp


/-- Claim C1, counterexample: the document `<html><!--x` newline `y--></html>`
has balanced tags, yet the lexer hits a position (the newline inside the
comment) where no rule of the `comment` state matches, so moo throws and the
emitted tokens do not reconstruct the input. -/
theorem C1_roundtrip_counterexample :
    (parseHTML "<html><!--x\ny--></html>").2 = true ∧
    concatTexts (parseHTML "<html><!--x\ny--></html>").1 ≠ "<html><!--x\ny--></html>" := by
  constructor
  · rfl
  · decide

/-- Claim C1 (amended): for every document on which `parseHTML` runs to
exhaustion without a lexer error, concatenating every emitted token's original
text reconstructs the input exactly, and the token offsets are consecutive from
0 (monotone and gap-free coverage of the whole input). -/
theorem C1_tokenizer_roundtrip (doc : String) (h : (parseHTML doc).2 = false) :
    concatTexts (parseHTML doc).1 = doc ∧ offsetsFromB 0 (parseHTML doc).1 = true :=
  tokenizeGo_roundtrip (doc.data.length + 1) [LexState.main] doc.data 0 h

/-- Witness for C1 at a concrete document. -/
theorem C1_tokenizer_roundtrip_witness :
    (parseHTML "<html></html>").2 = false ∧
    (concatTexts (parseHTML "<html></html>").1 = "<html></html>" ∧
      offsetsFromB 0 (parseHTML "<html></html>").1 = true) :=
  ⟨rfl, C1_tokenizer_roundtrip "<html></html>" rfl⟩

example : (parseHTML "<link href=\"/a.css\">").1.map Token.value =
    ["<link", " ", "href", "=", "\"/a.css\"", ">"] := by decide

example : (parseHTML "<link href=\"/a.css\">").1.map Token.type =
    [TokType.tagOpen, TokType.tagWS, TokType.attrName, TokType.attrAssignment,
      TokType.attrValue, TokType.tagEnd] := by decide


/-- JavaScript runtime errors that the scanner and the planner can raise.
`outOfFuel` is a modelling artifact: the walks below are given more fuel than
the token count and every iteration consumes at least one token, so it is never
reached by the wrappers. -/
inductive JSErr
  | typeError
  | lexerError
  | referenceError
  | outOfFuel
  deriving DecidableEq

/-- A JavaScript `Set` of strings, as its insertion-ordered element list:
`add` appends iff the element is not yet present. -/
def setAdd (l : List String) (x : String) : List String :=
  if l.contains x then l else l ++ [x]

/-- Collapse runs of `/` to a single `/` (the path normalization visible in the
uses of `path.join` here). -/
def collapseSlashes : List Char → List Char
  | [] => []
  | [c] => [c]
  | c1 :: c2 :: rest =>
    if c1 = '/' ∧ c2 = '/' then collapseSlashes (c2 :: rest)
    else c1 :: collapseSlashes (c2 :: rest)

/-- Modelled from the spec: Node's `path.join(a, b)` as used by `scanHTML`
(the spec resolves root-relative `/x` to `join(rootDir, x)` and others to
`join(dirname(file), x)`); segments are joined with `/` and duplicate slashes
collapse. -/
def pathJoin (a b : String) : String :=
  ⟨collapseSlashes (a.data ++ '/' :: b.data)⟩

/-- Modelled from the spec: Node's `path.dirname` — everything before the last
`/`, `.` when there is no `/`, `/` when the last `/` is the first char. -/
def dirname (s : String) : String :=
  let cs := s.data
  let afterLen := (cs.reverse.takeWhile (fun c => !(c = '/'))).length
  if afterLen = cs.length then "."
  else if cs.length - afterLen - 1 = 0 then "/"
  else ⟨cs.take (cs.length - afterLen - 1)⟩

/-- `value.replace(/^"/, '').replace(/"$/, '')` (html.js lines 95 and 112):
drop one leading and one trailing double quote when present. -/
def dropLeadQuote : List Char → List Char
  | '"' :: rest => rest
  | l => l

/-- Strip the surrounding double quotes of an `attrValue` token's value. -/
def stripQuotes (s : String) : String :=
  ⟨(dropLeadQuote (dropLeadQuote s.data).reverse).reverse⟩

/-- `href[0] === '/' ? path.join(buildDirectory, href) : path.join(path.dirname(file), href)`
(html.js lines 97-98 and 114-115). -/
def resolveRef (buildDirectory file ref : String) : String :=
  match ref.data with
  | '/' :: _ => pathJoin buildDirectory ref
  | _ => pathJoin (dirname file) ref

/-- The forward scan of html.js lines 88-90 (and 105-107):
`attrStart = html.next(); while (attrStart.type !== 'attrName' && attrStart.value !== target) attrStart = html.next();`
Note the `&&`: the loop stops at the FIRST `attrName` token of any name, or at
any token whose value is `target`.  When the stream is exhausted the next
`.type` access throws (`typeError`), or the lexer itself throws (`lexerError`). -/
def findAttrStart (target : String) (lexErr : Bool) :
    List Token → Except JSErr (Token × List Token)
  | [] => Except.error (if lexErr then JSErr.lexerError else JSErr.typeError)
  | t :: rest =>
    if t.type ≠ TokType.attrName ∧ t.value ≠ target then findAttrStart target lexErr rest
    else Except.ok (t, rest)

/-- The forward scan of html.js lines 92-93 (and 109-110):
`href = html.next(); while (href.type !== 'attrValue') href = html.next();` -/
def findAttrValueTok (lexErr : Bool) :
    List Token → Except JSErr (Token × List Token)
  | [] => Except.error (if lexErr then JSErr.lexerError else JSErr.typeError)
  | t :: rest =>
    if t.type ≠ TokType.attrValue then findAttrValueTok lexErr rest
    else Except.ok (t, rest)

/-- The token walk of `scanHTML` (html.js lines 83-121): accumulates the
`css`, `js` and `entry` sets.  On `tagOpen` `<link` the href-style scan runs,
on `tagOpen` `<script` the src-style scan; both resume the outer walk right
after the consumed `attrValue` token. -/
def scanHTMLWalk (bd file : String) (lexErr : Bool) :
    Nat → List Token → List String → List String → List String →
    Except JSErr (List String × List String × List String)
  | _, [], css, js, entry =>
    if lexErr then Except.error JSErr.lexerError else Except.ok (css, js, entry)
  | 0, _ :: _, _, _, _ => Except.error JSErr.outOfFuel
  | fuel+1, node :: rest, css, js, entry =>
    if node.type = TokType.tagOpen ∧ node.value = "<link" then
      match findAttrStart "href" lexErr rest with
      | Except.error e => Except.error e
      | Except.ok (_, rest1) =>
        match findAttrValueTok lexErr rest1 with
        | Except.error e => Except.error e
        | Except.ok (hrefTok, rest2) =>
          scanHTMLWalk bd file lexErr fuel rest2
            (setAdd css (resolveRef bd file (stripQuotes hrefTok.value))) js entry
    else if node.type = TokType.tagOpen ∧ node.value = "<script" then
      match findAttrStart "src" lexErr rest with
      | Except.error e => Except.error e
      | Except.ok (_, rest1) =>
        match findAttrValueTok lexErr rest1 with
        | Except.error e => Except.error e
        | Except.ok (srcTok, rest2) =>
          scanHTMLWalk bd file lexErr fuel rest2
            css (setAdd js (resolveRef bd file (stripQuotes srcTok.value)))
            (setAdd entry (resolveRef bd file (stripQuotes srcTok.value)))
    else scanHTMLWalk bd file lexErr fuel rest css js entry

/-- Modelled from the spec: `scanJS` lives in `lib/js.js`, which is not part of
the sources here; per the spec it recursively extracts the static imports of a
file, marking visited files in the shared Scanned-Files Set so that a cycle
terminates, and returns the imports it discovered.  The import graph stands in
for the already-built JS files on disk; `fuel` bounds the recursion depth and
is seeded above the graph size, so it never runs out. -/
def scanJSGo (graph : List (String × List String)) :
    Nat → List String → String → List String × List String
  | 0, scanned, _ => (scanned, [])
  | fuel+1, scanned, file =>
    if scanned.contains file then (scanned, [])
    else
      ((List.lookup file graph).getD []).foldl
        (fun acc i =>
          match scanJSGo graph fuel acc.1 i with
          | (sc, found) => (sc, acc.2 ++ i :: found))
        (file :: scanned, [])

/-- `scanJS` with its recursion depth seeded above the number of files that can
ever be marked visited. -/
def scanJS (graph : List (String × List String)) (scanned : List String)
    (file : String) : List String × List String :=
  scanJSGo graph (graph.length + 1) scanned file

/-- The transitive-scan loop of `scanHTML` (html.js lines 124-132):
`allJSImports.forEach(file => scanJS(...).forEach(i => allJSImports.add(i)))`.
JavaScript `Set.forEach` also visits elements added during the iteration, so
the embedding runs a queue that grows by the newly added elements; the
Scanned-Files Set is shared across the whole loop. -/
def scanAllJSGo (graph : List (String × List String)) :
    Nat → List String → List String → List String → List String
  | 0, _, _, acc => acc
  | _+1, [], _, acc => acc
  | qf+1, f :: queue, scanned, acc =>
    match scanJS graph scanned f with
    | (scanned', found) =>
      let acc' := found.foldl setAdd acc
      scanAllJSGo graph qf (queue ++ acc'.drop acc.length) scanned' acc'

/-- The transitive scan seeded with the direct `<script src>` imports; the
queue fuel is seeded above everything that can ever be enqueued. -/
def scanAllJS (graph : List (String × List String)) (seed : List String) : List String :=
  scanAllJSGo graph (seed.length + graph.foldl (fun n p => n + p.2.length) 0 + 1)
    seed [] seed

/-- The per-file Dependency Set `{entry, css, js}` that `scanHTML` stores in
`importList[file]`. -/
structure DepSet where
  entry : List String
  css : List String
  js : List String
  deriving DecidableEq

/-- `scanHTML` for one HTML file (html.js lines 68-143), with the file's
content passed directly instead of read from disk, and the import graph
standing in for the JS files consulted by `scanJS`. -/
def scanHTML (graph : List (String × List String))
    (buildDirectory file code : String) : Except JSErr DepSet :=
  match parseHTML code with
  | (toks, lexErr) =>
    match scanHTMLWalk buildDirectory file lexErr (toks.length + 1) toks [] [] [] with
    | Except.error e => Except.error e
    | Except.ok (css, js, entry) => Except.ok ⟨entry, css, scanAllJS graph js⟩

/-- Claim C2: on an HTML file whose body contains exactly the tags
`<link href="/a.css">` and `<script src="/b.js">`, `scanHTML` with build root
`root` returns the dependency set with css `root/a.css`, js `root/b.js` and
entry `root/b.js`: root-relative paths are joined onto the build root and the
script src is added to both `entry` and `js`. -/
theorem C2_scanHTML_basic :
    scanHTML [] "root" "root/index.html"
      "<html><body><link href=\"/a.css\"><script src=\"/b.js\"></script></body></html>" =
      Except.ok ⟨["root/b.js"], ["root/a.css"], ["root/b.js"]⟩ := rfl

/-- Claim C3 (code bug): for `<link rel="stylesheet" href="/a.css">` the
attribute scan stops at the FIRST `attrName` token (here `rel`), because the
loop condition of html.js line 89 combines the two exit tests with `&&`; the
path added to `css` is therefore `join(dirname(file), "stylesheet")` — the
value of `rel` — and not the href value `/a.css` that the code's own comment
(iterate through properties until we get to href) announces. -/
theorem C3_first_attr_wins :
    scanHTML [] "root" "root/index.html" "<link rel=\"stylesheet\" href=\"/a.css\">" =
      Except.ok ⟨[], ["root/stylesheet"], []⟩ := rfl

/-- Claim C4 (code bug): the attribute scans of `scanHTML` never check for
`tagEnd`/`tagSelfClose`.  On a `<link>` without href (or a `<script>` without
src) as the last tag, they run the token stream to exhaustion and the next
`.type` access crashes with a TypeError on `undefined`, instead of aborting at
the end of the tag and contributing nothing. -/
theorem C4_no_tag_end_abort :
    scanHTML [] "root" "root/index.html" "<link>" = Except.error JSErr.typeError ∧
    scanHTML [] "root" "root/index.html" "<script></script>" = Except.error JSErr.typeError :=
  ⟨rfl, rfl⟩

/-- Claim C5 (code bug): the `attrValue` rule's regex only matches
double-quoted text, so a single-quoted (or unquoted) attribute value never
produces an `attrValue` token — it is lexed as raw `attrAny` text and the
value callback that would normalize its quotes never runs; only a double-quoted
value yields an `attrValue` token (whose value keeps its double quotes). -/
theorem C5_only_double_quoted_attrValue :
    (parseHTML "<a b='c'>").1.filter (fun t => decide (t.type = TokType.attrValue)) = [] ∧
    (parseHTML "<a b=c>").1.filter (fun t => decide (t.type = TokType.attrValue)) = [] ∧
    (parseHTML "<a b='c'>").1.map Token.text = ["<a", " ", "b", "=", "'c'>"] ∧
    (parseHTML "<a b=\"c\">").1.map (fun t => (decide (t.type = TokType.attrValue), t.value)) =
      [(false, "<a"), (false, " "), (false, "b"), (false, "="), (true, "\"c\""), (false, ">")] :=
  ⟨by decide, by decide, by decide, by decide⟩


/-- Modelled from the spec: `insert(str, text, byteOffset)` from `../util`
(not among the sources here) — per the spec's Insertion Plan, the pair
`(byteOffset, text)` is applied by splicing `text` into the string at that
offset. -/
def insert (str ins : String) (pos : Nat) : String :=
  ⟨str.data.take pos ++ ins.data ++ str.data.drop pos⟩

/-- JavaScript truthiness of the optional `headEnd`/`bodyEnd` parameters of
`injectHTML` (absent or empty means falsy). -/
def truthy : Option String → Bool
  | none => false
  | some s => !s.data.isEmpty

/-- The insertion string of html.js lines 161 and 166: current indent plus one
extra level (two spaces when the indent starts with a space, else a tab), the
payload, and a newline. -/
def insertionText (indent payload : String) : String :=
  (if indent.data.head? = some ' ' then indent ++ "  " else indent ++ "\t") ++ payload ++ "\n"

/-- The token walk of `injectHTML` (html.js lines 151-171): tracks the last
`indent` token's value and the running `charOffset`, and splices the payloads
at `tagClose` `</head>` and `</body>` tokens at `offset + charOffset`. -/
def injectWalk (headEnd bodyEnd : Option String) (lexErr : Bool) :
    List Token → String → String → Nat → Except JSErr String
  | [], code, _, _ => if lexErr then Except.error JSErr.lexerError else Except.ok code
  | node :: rest, code, indent, charOffset =>
    let indent := if node.type = TokType.indent then node.value else indent
    if truthy headEnd ∧ node.type = TokType.tagClose ∧ node.value = "</head>" then
      injectWalk headEnd bodyEnd lexErr rest
        (insert code (insertionText indent (headEnd.getD "")) (node.offset + charOffset))
        indent (charOffset + (insertionText indent (headEnd.getD "")).length)
    else if truthy bodyEnd ∧ node.type = TokType.tagClose ∧ node.value = "</body>" then
      injectWalk headEnd bodyEnd lexErr rest
        (insert code (insertionText indent (bodyEnd.getD "")) (node.offset + charOffset))
        indent (charOffset + (insertionText indent (bodyEnd.getD "")).length)
    else injectWalk headEnd bodyEnd lexErr rest code indent charOffset

/-- `injectHTML(htmlDoc, {headEnd, bodyEnd})` (html.js lines 147-173). -/
def injectHTML (htmlDoc : String) (headEnd bodyEnd : Option String) :
    Except JSErr String :=
  match parseHTML htmlDoc with
  | (toks, lexErr) => injectWalk headEnd bodyEnd lexErr toks htmlDoc "" 0

/-- Claim C6: `injectHTML` on `<html><head></head></html>` with a `headEnd`
payload splices the payload (tab-indented, newline-terminated) exactly at the
offset of the `</head>` token: the payload occurs strictly before `</head>`
and removing the inserted characters restores the input byte for byte (the
second and fourth conjuncts recombine the untouched pieces into the original
documents); with both `headEnd` and `bodyEnd`, the second insertion lands at
the `</body>` token's original offset corrected by the length of the first
insertion. -/
theorem C6_injectHTML :
    injectHTML "<html><head></head></html>" (some "<X/>") none =
      Except.ok ("<html><head>" ++ "\t<X/>\n" ++ "</head></html>") ∧
    "<html><head>" ++ "</head></html>" = "<html><head></head></html>" ∧
    injectHTML "<html><head></head><body></body></html>" (some "<H/>") (some "<B/>") =
      Except.ok ("<html><head>" ++ "\t<H/>\n" ++ "</head><body>" ++ "\t<B/>\n" ++ "</body></html>") ∧
    "<html><head>" ++ "</head><body>" ++ "</body></html>" =
      "<html><head></head><body></body></html>" :=
  ⟨rfl, rfl, rfl, rfl⟩

/-- JavaScript `String.prototype.endsWith`, on the character lists. -/
def jsEndsWith (s suffixStr : String) : Bool :=
  suffixStr.data.isSuffixOf s.data

/-- The file filter of the optimize orchestrator (vanilla.js lines 139-141):
`(options.preloadCSS && !file.endsWith('.css.proxy.js')) || true`. -/
def optimizeFileFilter (preloadCSS : Bool) (file : String) : Bool :=
  (preloadCSS && !(jsEndsWith file ".css.proxy.js")) || true

/-- The second `resolvedModules` filter of `preloadJS` (html.js line 242):
`(m) => preloadCSS && !m.endsWith('.css.proxy.js')`. -/
def preloadModuleFilter (preloadCSS : Bool) (m : String) : Bool :=
  preloadCSS && !(jsEndsWith m ".css.proxy.js")

/-- Claim C9 (code bug): the orchestrator's filter ends in `|| true`, so it
accepts EVERY file — `.css.proxy.js` files are not skipped by the optimize
phase even with `preloadCSS` enabled (contradicting the code's own comment);
and the preload filter computes `preloadCSS && not-proxy`, so with
`preloadCSS` disabled it drops every module — non-proxy modules included —
from the preload list. -/
theorem C9_filters :
    (∀ (preloadCSS : Bool) (file : String), optimizeFileFilter preloadCSS file = true) ∧
    optimizeFileFilter true "a.css.proxy.js" = true ∧
    (∀ (mods : List String), mods.filter (preloadModuleFilter false) = []) ∧
    preloadModuleFilter false "m.js" = false :=
  ⟨fun pc f => by simp [optimizeFileFilter],
   rfl,
   fun mods => by simp [preloadModuleFilter],
   rfl⟩


/-- The inner scan of html.js lines 199-202 and 205-208: starting from the
current node, while it is not an `attrValue` fetch the next token, breaking
early on `tagEnd`/`tagSelfClose`; returns the final node and the rest of the
stream.  Running off the end of the stream accesses `.type` of `undefined`. -/
def scanToValueOrTagEnd (lexErr : Bool) :
    Token → List Token → Except JSErr (Token × List Token)
  | node, toks =>
    if node.type = TokType.attrValue then Except.ok (node, toks)
    else
      match toks with
      | [] => Except.error (if lexErr then JSErr.lexerError else JSErr.typeError)
      | t :: rest =>
        if t.type = TokType.tagEnd ∨ t.type = TokType.tagSelfClose then Except.ok (t, rest)
        else scanToValueOrTagEnd lexErr t rest

/-- The attribute loop of `preloadJS` (html.js lines 195-213):
`while (!src && !type)` fetch the next token; an `attrName` of `src` or `type`
runs the inner scan, whose final node is also subject to the tag-end break of
line 212 (on that break the tag-end token's VALUE is what gets assigned).
Returns the final `src` and `type` strings with the remaining stream. -/
def scriptAttrScan (lexErr : Bool) :
    Nat → String → String → List Token → Except JSErr (String × String × List Token)
  | 0, _, _, _ => Except.error JSErr.outOfFuel
  | fuel+1, src, ty, toks =>
    if src = "" ∧ ty = "" then
      match toks with
      | [] => Except.error (if lexErr then JSErr.lexerError else JSErr.typeError)
      | node :: rest =>
        if node.type = TokType.attrName then
          if node.value = "src" then
            match scanToValueOrTagEnd lexErr node rest with
            | Except.error e => Except.error e
            | Except.ok (n2, rest2) =>
              if n2.type = TokType.tagEnd ∨ n2.type = TokType.tagSelfClose then
                Except.ok (n2.value, ty, rest2)
              else scriptAttrScan lexErr fuel n2.value ty rest2
          else if node.value = "type" then
            match scanToValueOrTagEnd lexErr node rest with
            | Except.error e => Except.error e
            | Except.ok (n2, rest2) =>
              if n2.type = TokType.tagEnd ∨ n2.type = TokType.tagSelfClose then
                Except.ok (src, n2.value, rest2)
              else scriptAttrScan lexErr fuel src n2.value rest2
          else scriptAttrScan lexErr fuel src ty rest
        else if node.type = TokType.tagEnd ∨ node.type = TokType.tagSelfClose then
          Except.ok (src, ty, rest)
        else scriptAttrScan lexErr fuel src ty rest
    else Except.ok (src, ty, toks)

/-- The `<script>` loop of `preloadJS` (html.js lines 186-223), collecting
`originalEntries`.  Because `while (!src && !type)` exits as soon as ONE of
the two is set, line 215's `src && type == (quote)module(quote)` can never
hold; if it ever did, line 216 would crash with a TypeError anyway, since it
calls `.replace` on `src.value` and `src` is already a plain string. -/
def preloadScriptWalk (lexErr : Bool) :
    Nat → List Token → List String → Except JSErr (List String)
  | _, [], entries => if lexErr then Except.error JSErr.lexerError else Except.ok entries
  | 0, _ :: _, _ => Except.error JSErr.outOfFuel
  | fuel+1, node :: rest, entries =>
    if node.type = TokType.tagOpen ∧ node.value = "<script" then
      match scriptAttrScan lexErr (rest.length + 1) "" "" rest with
      | Except.error e => Except.error e
      | Except.ok (src, ty, rest2) =>
        if src ≠ "" ∧ ty = "\"module\"" then Except.error JSErr.typeError
        else preloadScriptWalk lexErr fuel rest2 entries
    else preloadScriptWalk lexErr fuel rest entries

/-- Step 2 of `preloadJS` (html.js lines 226-234): fold `scanJS` over the
original entries with one shared Scanned-Files Set, accumulating `allModules`. -/
def preloadAllModules (graph : List (String × List String))
    (entries : List String) : List String :=
  (entries.foldl
    (fun (p : List String × List String) e =>
      match scanJS graph p.1 e with
      | (sc, found) => (sc, found.foldl setAdd p.2))
    ([], [])).2

/-- `preloadJS({code, rootDir, htmlFile, preloadCSS})` (html.js lines
177-259).  After the `<script>` scan and the transitive module scan, line 237
evaluates `if (cssName)` — but `cssName` is declared nowhere in the file, so
every invocation that reaches step 3 raises a ReferenceError, and the code
that would build and inject the preload markup (lines 240-258) is unreachable. -/
def preloadJS (graph : List (String × List String))
    (code rootDir htmlFile : String) (preloadCSS : Bool) : Except JSErr String :=
  match preloadScriptWalk (parseHTML code).2 ((parseHTML code).1.length + 1)
      (parseHTML code).1 [] with
  | Except.error e => Except.error e
  | Except.ok originalEntries =>
    let _allModules := preloadAllModules graph originalEntries
    Except.error JSErr.referenceError

/-- Claim C10: `preloadJS` never returns normally for any input: either the
script scan raises a JavaScript error, or step 3 unconditionally evaluates the
undeclared identifier `cssName` and raises a ReferenceError. -/
theorem C10_preloadJS_always_throws (graph : List (String × List String))
    (code rootDir htmlFile : String) (preloadCSS : Bool) :
    ∃ e, preloadJS graph code rootDir htmlFile preloadCSS = Except.error e := by
  unfold preloadJS
  cases preloadScriptWalk (parseHTML code).2 ((parseHTML code).1.length + 1)
      (parseHTML code).1 [] with
  | error e => exact ⟨e, rfl⟩
  | ok entries => exact ⟨JSErr.referenceError, rfl⟩

/-- Claim C8 (code bug): `preloadJS` has no normal result to be idempotent on —
already on a plain preload-free document it raises the ReferenceError for the
undeclared `cssName` instead of returning the document unchanged. -/
theorem C8_preloadJS_no_output :
    preloadJS [] "<html><head></head><body></body></html>" "root" "root/index.html" true =
      Except.error JSErr.referenceError := rfl

/-- A file already in the Scanned-Files Set is never rescanned: `scanJSGo`
returns immediately with no new imports, whatever fuel remains — this is the
cycle-safety mechanism of the transitive scan. -/
theorem scanJSGo_visited (graph : List (String × List String)) (fuel : Nat)
    (scanned : List String) (file : String) (h : scanned.contains file = true) :
    scanJSGo graph fuel scanned file = (scanned, []) := by
  cases fuel with
  | zero => rfl
  | succ n => simp only [scanJSGo, h]; rfl

/-- Once the queue is empty, the transitive scan returns the accumulated set,
whatever fuel remains. -/
theorem scanAllJSGo_nil (graph : List (String × List String)) (qf : Nat)
    (scanned acc : List String) :
    scanAllJSGo graph qf [] scanned acc = acc := by
  cases qf <;> simp [scanAllJSGo]

/-- The two-file cyclic import graph of claim C7: `b.js` statically imports
`c.js`, and `c.js` imports `b.js` back. -/
def cycleGraph : List (String × List String) :=
  [("root/b.js", ["root/c.js"]), ("root/c.js", ["root/b.js"])]

/-- Claim C7: on the cyclic graph the scan terminates and computes exactly the
reachable set.  The recursive scan marks `b.js` then `c.js` visited and stops
when it meets `b.js` again — for EVERY remaining recursion fuel, so the result
is independent of the fuel beyond 2 (genuine termination by the Scanned-Files
Set); the queue-driven loop of `scanHTML` seeded with `b.js` likewise returns
exactly the set of `b.js` and `c.js` for every queue fuel of at least 1, and
so does the seeded wrapper `scanAllJS`. -/
theorem C7_cycle_scan (s qf : Nat) (hq : 1 ≤ qf) :
    scanJSGo cycleGraph (s + 2) [] "root/b.js" =
      (["root/c.js", "root/b.js"], ["root/c.js", "root/b.js"]) ∧
    scanAllJSGo cycleGraph qf ["root/b.js"] [] ["root/b.js"] =
      ["root/b.js", "root/c.js"] ∧
    scanAllJS cycleGraph ["root/b.js"] = ["root/b.js", "root/c.js"] := by
  refine ⟨?_, ?_, rfl⟩
  · have h1 : scanJSGo cycleGraph s ["root/c.js", "root/b.js"] "root/b.js"
        = (["root/c.js", "root/b.js"], []) := scanJSGo_visited _ _ _ _ rfl
    have h2 : List.lookup "root/b.js" cycleGraph = some ["root/c.js"] := rfl
    have h3 : List.lookup "root/c.js" cycleGraph = some ["root/b.js"] := rfl
    simp [scanJSGo, h1, h2, h3]
  · obtain ⟨q, rfl⟩ : ∃ q, qf = q + 1 := ⟨qf - 1, by omega⟩
    cases q with
    | zero => rfl
    | succ q2 =>
      calc scanAllJSGo cycleGraph (q2 + 1 + 1) ["root/b.js"] [] ["root/b.js"]
          = scanAllJSGo cycleGraph (q2 + 1) ["root/c.js"] ["root/c.js", "root/b.js"]
              ["root/b.js", "root/c.js"] := rfl
        _ = scanAllJSGo cycleGraph q2 [] ["root/c.js", "root/b.js"]
              ["root/b.js", "root/c.js"] := rfl
        _ = ["root/b.js", "root/c.js"] := scanAllJSGo_nil _ _ _ _

/-- Witness for C7 at concrete fuels. -/
theorem C7_cycle_scan_witness :
    1 ≤ 1 ∧
    (scanJSGo cycleGraph (0 + 2) [] "root/b.js" =
        (["root/c.js", "root/b.js"], ["root/c.js", "root/b.js"]) ∧
      scanAllJSGo cycleGraph 1 ["root/b.js"] [] ["root/b.js"] =
        ["root/b.js", "root/c.js"] ∧
      scanAllJS cycleGraph ["root/b.js"] = ["root/b.js", "root/c.js"]) :=
  ⟨by decide, C7_cycle_scan 0 1 (by decide)⟩

end Snowpack
